import Mathlib

/-
  Verification of the Ghiblify credit ledger and payment-reconciliation logic.

  Shallow embedding of the Python sources under back/app:
  * services/redis_service.py  (ModernRedisService: get/set/add credits, kv store)
  * api/web3_auth.py           (get_credits / set_credits wrappers, credit endpoints)
  * api/credit_manager.py      (CreditManager.validate_and_spend_credit, refund_credit)
  * api/admin_credit_manager.py (AdminCreditManager.admin_add_credits, admin_get_credits)
  * api/stripe_handler.py      (webhook and session-check credit paths)
  * api/base_pay_handler.py    (process_base_payment_data)
  * api/celo_handler.py        (check_payment_status)
  * api/unified_wallet.py      (wallet/credits/add and wallet/credits/use endpoints)
  * api/comfyui_handler.py     (upload_to_imgbb retry loop)
  * config/pricing.py          (tier prices, validate_payment_amount)

  The Redis credit hash is modelled as an association list from (already
  lowercased) user keys to integer balances; the first binding for a key wins,
  which models dict/hash assignment.  Monetary amounts are modelled in integer
  cents (the Python floats 0.50/4.99/9.99 and their 30%-discounted, 2-digit
  rounded values are exactly representable in cents, and the 0.01 comparison
  tolerance of validate_payment_amount becomes equality on cents).
-/

namespace Ghiblify

/-- Evaluation form of `String.toLower` (Python `str.lower`): mapping
`Char.toLower` over the character data. -/
theorem toLower_eval (s : String) : s.toLower = ⟨s.data.map Char.toLower⟩ :=
  String.map_eq Char.toLower s

/-- `Char.ofNat` of a valid code point reads back as that code point. -/
theorem char_toNat_ofNat (n : Nat) (h : n.isValidChar) : (Char.ofNat n).toNat = n := by
  simp [Char.ofNat, h, Char.ofNatAux, Char.toNat, UInt32.toNat, BitVec.toNat_ofNatLt]

/-- Character-level fact used to normalize wallet addresses: Python
`str.lower` (embedded as `Char.toLower` per character) is idempotent. -/
theorem char_toLower_toLower (c : Char) : c.toLower.toLower = c.toLower := by
  unfold Char.toLower
  by_cases h : c.toNat ≥ 65 ∧ c.toNat ≤ 90
  · rw [if_pos h]
    have hv : (c.toNat + 32).isValidChar := by
      left
      omega
    rw [char_toNat_ofNat _ hv]
    have hno : ¬(c.toNat + 32 ≥ 65 ∧ c.toNat + 32 ≤ 90) := by omega
    rw [if_neg hno]
  · rw [if_neg h, if_neg h]

/-- `address.lower().lower() == address.lower()`: lowercasing a wallet address
twice (as happens when CreditManager normalizes an address and the Redis
service lowercases it again) equals lowercasing it once. -/
theorem toLower_toLower (s : String) : s.toLower.toLower = s.toLower := by
  show (s.map Char.toLower).map Char.toLower = s.map Char.toLower
  have hcomp : Char.toLower ∘ Char.toLower = Char.toLower := funext char_toLower_toLower
  simp [String.map_eq, List.map_map, hcomp]

/-- The credit store: the per-user Redis hashes `user:{address}` restricted to
their `credits` field.  Keys are the lowercased addresses; the first binding
for a key is the current one. -/
abbrev Store := List (String × Int)

/-- Key normalization done inside ModernRedisService: every credit operation
builds its key from `address.lower()`. -/
def userKey (address : String) : String := address.toLower

/-- Normalizing an already-normalized address changes nothing. -/
theorem userKey_toLower (address : String) :
    userKey address.toLower = userKey address := by
  simp [userKey, toLower_toLower]

namespace ModernRedisService

/-- `ModernRedisService.get_credits` (redis_service.py lines 206-225):
`hget user:{address.lower()} credits`, defaulting to 0 when the field is
absent (`int(credits) if credits else 0`; the memory fallback uses
`self._memory_credits.get(address.lower(), 0)`). -/
def get_credits (s : Store) (address : String) : Int :=
  match s.find? (fun p => p.1 == userKey address) with
  | some p => p.2
  | none => 0

/-- `ModernRedisService.set_credits` (redis_service.py lines 227-251):
`hset user:{address.lower()} credits amount` (the `updated_at` field is not
modelled).  Hash assignment is modelled by prepending the new binding. -/
def set_credits (s : Store) (address : String) (amount : Int) : Store :=
  (userKey address, amount) :: s

/-- `ModernRedisService.add_credits` (redis_service.py lines 253-275).
When Redis is `available` it runs `hincrby user:{address.lower()} credits
amount` (an atomic read-increment-write) and returns the new value; the
memory fallback reads `_memory_credits.get(address.lower(), 0)`, adds, and
stores.  Both paths are embedded over the same store. -/
def add_credits (available : Bool) (s : Store) (address : String) (amount : Int) :
    Store × Int :=
  if available then
    let new_credits := get_credits s address + amount
    (set_credits s address new_credits, new_credits)
  else
    let current := get_credits s address
    let new_amount := current + amount
    (set_credits s address new_amount, new_amount)

end ModernRedisService

/-- Reading a key just written: the written value is returned exactly when the
two addresses normalize to the same user key. -/
theorem get_credits_set_credits (s : Store) (a b : String) (v : Int) :
    ModernRedisService.get_credits (ModernRedisService.set_credits s a v) b =
      if userKey a = userKey b then v else ModernRedisService.get_credits s b := by
  by_cases h : userKey a = userKey b
  · simp [ModernRedisService.get_credits, ModernRedisService.set_credits, List.find?_cons, h]
  · have h2 : (userKey a == userKey b) = false := by
      simp [h]
    simp [ModernRedisService.get_credits, ModernRedisService.set_credits, List.find?_cons, h, h2]

/-- Reads through a pre-lowercased address see the same balance. -/
theorem service_get_toLower (s : Store) (address : String) :
    ModernRedisService.get_credits s address.toLower =
      ModernRedisService.get_credits s address := by
  simp [ModernRedisService.get_credits, userKey_toLower]

/-- Writes through a pre-lowercased address produce the same store. -/
theorem service_set_toLower (s : Store) (address : String) (v : Int) :
    ModernRedisService.set_credits s address.toLower v =
      ModernRedisService.set_credits s address v := by
  simp [ModernRedisService.set_credits, userKey_toLower]

/-- `web3_auth.get_credits` (web3_auth.py lines 92-94): delegates to the
modern Redis service. -/
def get_credits (s : Store) (address : String) : Int :=
  ModernRedisService.get_credits s address

/-- `web3_auth.set_credits` (web3_auth.py lines 96-98): delegates to the
modern Redis service. -/
def set_credits (s : Store) (address : String) (amount : Int) : Store :=
  ModernRedisService.set_credits s address amount

/-- Wrapper-level version of `service_get_toLower`. -/
theorem get_credits_toLower (s : Store) (address : String) :
    get_credits s address.toLower = get_credits s address :=
  service_get_toLower s address

/-- Wrapper-level version of `service_set_toLower`. -/
theorem set_credits_toLower (s : Store) (address : String) (v : Int) :
    set_credits s address.toLower v = set_credits s address v :=
  service_set_toLower s address v

/-- Reading back what was written at the same address. -/
theorem get_set_same (s : Store) (address : String) (v : Int) :
    get_credits (set_credits s address v) address = v := by
  simp [get_credits, set_credits, get_credits_set_credits]

/-- Result of an endpoint-level credit operation: either a value or an
HTTPException carrying a status code and detail string. -/
inductive SpendResult where
  | ok (newBalance : Int)
  | httpError (statusCode : Nat) (detail : String)
deriving DecidableEq, Repr

/-- The 402 detail raised by `CreditManager.validate_and_spend_credit`
(credit_manager.py lines 40-43; the terminal emoji is omitted). -/
def insufficientCreditsDetail : String :=
  "You need credits to create magical art. Add credits to continue transforming your images!"

namespace CreditManager

/-- `CreditManager.validate_and_spend_credit` (credit_manager.py lines 17-50):
normalize the address, read the balance, raise HTTP 402 if it is below 1,
otherwise store and return `current_credits - 1`.  The returned store is the
post-state (unchanged on the 402 path, since the exception is raised before
any write). -/
def validate_and_spend_credit (s : Store) (address : String) : SpendResult × Store :=
  let normalized_address := address.toLower
  let current_credits := get_credits s normalized_address
  if current_credits < 1 then
    (.httpError 402 insufficientCreditsDetail, s)
  else
    let new_balance := current_credits - 1
    (.ok new_balance, set_credits s normalized_address new_balance)

/-- `CreditManager.refund_credit` (credit_manager.py lines 53-75): add one
credit inside a `try`.  `setRaises` is an oracle for the only fallible step,
the store update; when it raises, the `except` branch swallows the error and
returns the currently stored (unchanged) balance instead. -/
def refund_credit (setRaises : Bool) (s : Store) (address : String) : Store × Int :=
  let normalized_address := address.toLower
  let current_credits := get_credits s normalized_address
  let new_balance := current_credits + 1
  if setRaises then
    (s, get_credits s normalized_address)
  else
    (set_credits s normalized_address new_balance, new_balance)

end CreditManager

/-- Normal form of `validate_and_spend_credit` with the double lowercasing
collapsed. -/
theorem validate_and_spend_credit_eq (s : Store) (address : String) :
    CreditManager.validate_and_spend_credit s address =
      if get_credits s address < 1 then
        (.httpError 402 insufficientCreditsDetail, s)
      else
        (.ok (get_credits s address - 1),
         set_credits s address (get_credits s address - 1)) := by
  simp [CreditManager.validate_and_spend_credit, get_credits_toLower, set_credits_toLower]

/-- Normal form of `refund_credit` with the double lowercasing collapsed. -/
theorem refund_credit_eq (setRaises : Bool) (s : Store) (address : String) :
    CreditManager.refund_credit setRaises s address =
      if setRaises then (s, get_credits s address)
      else (set_credits s address (get_credits s address + 1),
            get_credits s address + 1) := by
  cases setRaises <;>
    simp [CreditManager.refund_credit, get_credits_toLower, set_credits_toLower]

/-- The dict returned by `AdminCreditManager.admin_add_credits`
(admin_credit_manager.py lines 37-44). -/
structure AdminAddResult where
  address : String
  old_balance : Int
  new_balance : Int
  amount_added : Int
  context : String
deriving DecidableEq, Repr

/-- The dict returned by `AdminCreditManager.admin_get_credits`
(admin_credit_manager.py lines 90-95). -/
structure AdminGetResult where
  address : String
  credits : Int
  status : String
deriving DecidableEq, Repr

namespace AdminCreditManager

/-- `AdminCreditManager.admin_add_credits` (admin_credit_manager.py
lines 17-44): normalize, read the old balance, store old + amount, and
report both balances. -/
def admin_add_credits (s : Store) (address : String) (amount : Int)
    (admin_context : String) : Store × AdminAddResult :=
  let normalized_address := address.toLower
  let old_balance := get_credits s normalized_address
  let new_balance := old_balance + amount
  (set_credits s normalized_address new_balance,
   ⟨normalized_address, old_balance, new_balance, amount, admin_context⟩)

/-- `AdminCreditManager.admin_get_credits` (admin_credit_manager.py
lines 77-95). -/
def admin_get_credits (s : Store) (address : String) : AdminGetResult :=
  let normalized_address := address.toLower
  let credits := get_credits s normalized_address
  ⟨normalized_address, credits, if credits > 0 then "active" else "empty"⟩

end AdminCreditManager

/-- C1: if the stored balance of the wallet address is below 1,
`CreditManager.validate_and_spend_credit` raises HTTP 402 and leaves the
store untouched; if it is at least 1 it stores and returns balance - 1, which
is never negative. -/
theorem C1_validate_and_spend_credit_spec (s : Store) (address : String) :
    (get_credits s address < 1 →
      CreditManager.validate_and_spend_credit s address =
        (.httpError 402 insufficientCreditsDetail, s)) ∧
    (1 ≤ get_credits s address →
      (CreditManager.validate_and_spend_credit s address).1 =
          .ok (get_credits s address - 1) ∧
      get_credits (CreditManager.validate_and_spend_credit s address).2 address =
          get_credits s address - 1 ∧
      0 ≤ get_credits (CreditManager.validate_and_spend_credit s address).2 address) := by
  rw [validate_and_spend_credit_eq]
  constructor
  · intro hlt
    simp [hlt]
  · intro hge
    have hnot : ¬ get_credits s address < 1 := by omega
    refine ⟨by simp [hnot], ?_, ?_⟩
    · simp [hnot, get_set_same]
    · simp [hnot, get_set_same]
      omega

/-- Witness for C1 at concrete stores: spending from balance 3 yields 2, and
spending from balance 0 raises 402 without touching the store. -/
theorem C1_validate_and_spend_credit_witness :
    (CreditManager.validate_and_spend_credit [("0xab", (3 : Int))] "0xAB").1 =
        .ok 2 ∧
    CreditManager.validate_and_spend_credit [("0xcd", (0 : Int))] "0xCD" =
        (.httpError 402 insufficientCreditsDetail, [("0xcd", (0 : Int))]) := by
  have heval3 : get_credits [("0xab", (3 : Int))] "0xAB" = 3 := by
    simp only [get_credits, ModernRedisService.get_credits, userKey, toLower_eval]
    decide
  have heval0 : get_credits [("0xcd", (0 : Int))] "0xCD" = 0 := by
    simp only [get_credits, ModernRedisService.get_credits, userKey, toLower_eval]
    decide
  constructor
  · have h := ((C1_validate_and_spend_credit_spec [("0xab", (3 : Int))] "0xAB").2
      (by rw [heval3]; norm_num)).1
    rw [heval3] at h
    norm_num at h
    exact h
  · exact (C1_validate_and_spend_credit_spec [("0xcd", (0 : Int))] "0xCD").1
      (by rw [heval0]; norm_num)

/-- C7: `CreditManager.refund_credit` is total (the embedding returns on every
path, modelling that the Python wraps the update in try/except and never
re-raises).  When the update succeeds it stores and returns the old balance
plus 1; when the update raises, the store is unchanged and the currently
stored balance is returned. -/
theorem C7_refund_credit_spec (s : Store) (address : String) (setRaises : Bool) :
    CreditManager.refund_credit false s address =
      (set_credits s address (get_credits s address + 1), get_credits s address + 1) ∧
    get_credits (CreditManager.refund_credit false s address).1 address =
      get_credits s address + 1 ∧
    CreditManager.refund_credit true s address = (s, get_credits s address) ∧
    (CreditManager.refund_credit setRaises s address).2 =
      (if setRaises then get_credits s address else get_credits s address + 1) := by
  refine ⟨refund_credit_eq false s address, ?_, refund_credit_eq true s address, ?_⟩
  · rw [refund_credit_eq]
    simp [get_set_same]
  · rw [refund_credit_eq]
    cases setRaises <;> simp

/-- C9: `AdminCreditManager.admin_add_credits` and
`ModernRedisService.add_credits` (on both its Redis/HINCRBY and its memory
paths) produce identical stores and report the same new balance, namely the
old balance plus the amount. -/
theorem C9_admin_add_equals_service_add (available : Bool) (s : Store)
    (address : String) (amount : Int) (ctx : String) :
    (AdminCreditManager.admin_add_credits s address amount ctx).2.new_balance =
        get_credits s address + amount ∧
    (ModernRedisService.add_credits available s address amount).2 =
        get_credits s address + amount ∧
    (AdminCreditManager.admin_add_credits s address amount ctx).1 =
        (ModernRedisService.add_credits available s address amount).1 := by
  refine ⟨?_, ?_, ?_⟩
  · simp [AdminCreditManager.admin_add_credits, get_credits_toLower]
  · cases available <;>
      simp [ModernRedisService.add_credits, get_credits]
  · cases available <;>
      simp [AdminCreditManager.admin_add_credits, ModernRedisService.add_credits,
        get_credits, set_credits, service_get_toLower, service_set_toLower]

/-! ### C5: the CELO handler module cannot be imported -/

/-- The names bound at module level in web3_auth.py (class, router, functions,
helper wrappers, and the names brought in by its own import statements) —
these are exactly the names importable from the module. -/
def web3AuthModuleNames : List String :=
  ["APIRouter", "HTTPException", "JSONResponse", "BaseModel", "secrets", "re",
   "time", "encode_defunct", "Web3", "w3", "logging", "redis_service",
   "logger", "SIWEVerifyRequest", "web3_router", "REDIS_AVAILABLE",
   "verify_siwe_signature", "validate_siwe_message", "get_credits",
   "set_credits", "get_nonce_options", "get_nonce", "verify_siwe_options",
   "verify_siwe", "web3_login", "test_redis", "check_credits", "add_credits",
   "use_credits", "get_system_status", "redis_get", "redis_set",
   "redis_exists", "redis_pipeline", "MemoryPipeline"]

/-- celo_handler.py line 10:
`from .web3_auth import get_credits, set_credits, redis_client`. -/
def celoImportsFromWeb3Auth : List String :=
  ["get_credits", "set_credits", "redis_client"]

/-- Names requested by celo_handler's import that web3_auth does not bind;
Python raises ImportError on the first such name, so the module loads only
when this list is empty. -/
def celoMissingImports : List String :=
  celoImportsFromWeb3Auth.filter (fun n => !(web3AuthModuleNames.contains n))

/-- Whether `import celo_handler` succeeds. -/
def celo_module_loads : Bool := celoMissingImports.isEmpty

/-- The CELO payment endpoints registered on `celo_router`
(celo_handler.py lines 105, 209, 233). -/
inductive CeloEndpoint where
  | checkPayment (txHash : String)
  | purchaseHistory (address : String)
  | processPendingEvents
deriving DecidableEq, Repr

/-- Invoking a CELO endpoint: a FastAPI route can only run if its module was
imported when the router was wired (router.py line 9 imports celo_handler),
so every invocation fails with the module's ImportError when the module does
not load.  The loaded branch is never reached. -/
def invoke_celo_endpoint (e : CeloEndpoint) : Except String CeloEndpoint :=
  if celo_module_loads then .ok e
  else .error "ImportError: cannot import name redis_client from web3_auth"

/-- C5: web3_auth binds no name `redis_client`, so celo_handler's import of it
fails, the module does not load, and every invocation of a CELO payment
endpoint fails with that ImportError. -/
theorem C5_celo_module_import_fails :
    "redis_client" ∉ web3AuthModuleNames ∧
    celoMissingImports = ["redis_client"] ∧
    celo_module_loads = false ∧
    ∀ e : CeloEndpoint,
      invoke_celo_endpoint e =
        .error "ImportError: cannot import name redis_client from web3_auth" := by
  refine ⟨by decide, by decide, by decide, ?_⟩
  intro e
  have h : celo_module_loads = false := by decide
  simp [invoke_celo_endpoint, h]

/-! ### C10: the ImgBB upload retry policy -/

namespace ComfyUI

/-- What one HTTP attempt of `upload_to_imgbb` does, covering the five
branches of its try/except (comfyui_handler.py lines 89-112). -/
inductive AttemptOutcome where
  | success (url : String)
  | apiFail (msg : String)
  | timeout
  | httpFail (msg : String)
  | unexpected
deriving DecidableEq, Repr

/-- An HTTPException value. -/
structure HttpErr where
  status_code : Nat
  detail : String
deriving DecidableEq, Repr

/-- The `last_error` recorded for an attempt (none exactly on success),
transliterating the branch bodies at comfyui_handler.py lines 100-112. -/
def attemptError : AttemptOutcome → Option HttpErr
  | .success _ => none
  | .apiFail msg => some ⟨500, "Failed to upload image to ImgBB: " ++ msg⟩
  | .timeout => some ⟨504, "Timeout uploading to ImgBB. Please try again."⟩
  | .httpFail msg => some ⟨500, "Error uploading to ImgBB: " ++ msg⟩
  | .unexpected => some ⟨500, "Unexpected error during image upload"⟩

/-- Observable trace of one call to `upload_to_imgbb`: its outcome, how many
HTTP attempts it made, and how many 1-second sleeps it performed. -/
structure UploadTrace where
  result : Except HttpErr String
  attemptsMade : Nat
  sleeps : Nat
deriving Repr

/-- The `while attempts < 2` loop (comfyui_handler.py lines 85-118).
`outcome n` says what the n-th HTTP attempt does (1-based).  `fuel` is the
number of iterations the guard still allows (`2 - attempts`), so the loop
starts with `fuel = 2`; after the loop the last recorded error (or the
fallback 500) is raised. -/
def uploadLoop (outcome : Nat → AttemptOutcome) :
    Nat → Nat → Option HttpErr → Nat → UploadTrace
  | 0, attempts, lastError, sleeps =>
      { result := .error (lastError.getD ⟨500, "Failed to upload image to ImgBB"⟩),
        attemptsMade := attempts, sleeps := sleeps }
  | fuel + 1, attempts, lastError, sleeps =>
      let attempts := attempts + 1
      match outcome attempts with
      | .success url =>
          { result := .ok url, attemptsMade := attempts, sleeps := sleeps }
      | o =>
          let lastError := attemptError o
          let sleeps := if attempts < 2 then sleeps + 1 else sleeps
          uploadLoop outcome fuel attempts lastError sleeps

/-- `upload_to_imgbb` (comfyui_handler.py lines 64-118): the missing-api-key
guard raises 500 before any attempt, otherwise the two-attempt loop runs.
The PNG re-encoding is I/O glue and is not modelled. -/
def upload_to_imgbb (hasApiKey : Bool) (outcome : Nat → AttemptOutcome) :
    UploadTrace :=
  if hasApiKey then uploadLoop outcome 2 0 none 0
  else { result := .error ⟨500, "ImgBB API key not configured"⟩,
         attemptsMade := 0, sleeps := 0 }

end ComfyUI

/-- C10: with the API key configured, `upload_to_imgbb` makes at most two
attempts and sleeps at most once; a first-attempt success returns after one
attempt with no sleep; after a first failure it sleeps exactly once and tries
a second time; and when both attempts fail it raises the error recorded for
the second (last) attempt — there is no further retry or backoff. -/
theorem C10_upload_to_imgbb_retry_policy (outcome : Nat → ComfyUI.AttemptOutcome) :
    (ComfyUI.upload_to_imgbb true outcome).attemptsMade ≤ 2 ∧
    (ComfyUI.upload_to_imgbb true outcome).sleeps ≤ 1 ∧
    (∀ url, outcome 1 = .success url →
      ComfyUI.upload_to_imgbb true outcome = ⟨.ok url, 1, 0⟩) ∧
    (∀ url, ComfyUI.attemptError (outcome 1) ≠ none → outcome 2 = .success url →
      ComfyUI.upload_to_imgbb true outcome = ⟨.ok url, 2, 1⟩) ∧
    (∀ e₁ e₂, ComfyUI.attemptError (outcome 1) = some e₁ →
      ComfyUI.attemptError (outcome 2) = some e₂ →
      ComfyUI.upload_to_imgbb true outcome = ⟨.error e₂, 2, 1⟩) := by
  have hrun : ∀ o₁, outcome 1 = o₁ → ∀ o₂, outcome 2 = o₂ →
      ComfyUI.upload_to_imgbb true outcome =
        match o₁ with
        | .success url => ⟨.ok url, 1, 0⟩
        | o₁ =>
          match o₂ with
          | .success url => ⟨.ok url, 2, 1⟩
          | o₂ => ⟨.error ((ComfyUI.attemptError o₂).getD
              ⟨500, "Failed to upload image to ImgBB"⟩), 2, 1⟩ := by
    intro o₁ h₁ o₂ h₂
    cases o₁ <;> cases o₂ <;>
      simp [ComfyUI.upload_to_imgbb, ComfyUI.uploadLoop, h₁, h₂, ComfyUI.attemptError]
  have hmain := hrun (outcome 1) rfl (outcome 2) rfl
  refine ⟨?_, ?_, ?_, ?_, ?_⟩
  · rw [hmain]
    cases h₁ : outcome 1 <;> cases h₂ : outcome 2 <;> simp
  · rw [hmain]
    cases h₁ : outcome 1 <;> cases h₂ : outcome 2 <;> simp
  · intro url h₁
    rw [hmain, h₁]
  · intro url hfail h₂
    rw [hmain, h₂]
    cases h₁ : outcome 1 <;> simp_all [ComfyUI.attemptError]
  · intro e₁ e₂ hf₁ hf₂
    rw [hmain]
    cases h₁ : outcome 1 <;> cases h₂ : outcome 2 <;>
      simp_all [ComfyUI.attemptError]

/-- Witness for C10 at a concrete attempt schedule: a timeout then an ImgBB
api failure makes exactly two attempts, one sleep, and raises the second
attempt's 500 error. -/
theorem C10_upload_to_imgbb_retry_policy_witness :
    ComfyUI.upload_to_imgbb true
        (fun n => if n = 1 then .timeout else .apiFail "boom") =
      ⟨.error ⟨500, "Failed to upload image to ImgBB: boom"⟩, 2, 1⟩ := by
  have h := (C10_upload_to_imgbb_retry_policy
      (fun n => if n = 1 then .timeout else .apiFail "boom")).2.2.2.2
      ⟨504, "Timeout uploading to ImgBB. Please try again."⟩
      ⟨500, "Failed to upload image to ImgBB: boom"⟩ (by decide) (by decide)
  exact h

/-! ### C3: interleaved credit updates -/

namespace Concurrency

/-- Atomic Redis-level steps of the two concurrent clients A and B.
`readX addr` is `get_credits(addr)` storing the balance in X's local
variable; `writeAddX addr amount` is the subsequent
`set_credits(addr, local + amount)` of `AdminCreditManager.admin_add_credits`
(admin_credit_manager.py lines 31-33); `hincrbyX addr amount` is the single
atomic `HINCRBY` step of `ModernRedisService.add_credits`
(redis_service.py line 264). -/
inductive CAction where
  | readA (address : String)
  | writeAddA (address : String) (amount : Int)
  | readB (address : String)
  | writeAddB (address : String) (amount : Int)
  | hincrbyA (address : String) (amount : Int)
  | hincrbyB (address : String) (amount : Int)
deriving DecidableEq, Repr

/-- Shared store plus the two clients' local `old_balance` variables. -/
structure CState where
  store : Store
  regA : Int
  regB : Int
deriving Repr

/-- Effect of one atomic step on the shared state. -/
def applyAction : CAction → CState → CState
  | .readA a, st => { st with regA := get_credits st.store a }
  | .writeAddA a amt, st => { st with store := set_credits st.store a (st.regA + amt) }
  | .readB a, st => { st with regB := get_credits st.store a }
  | .writeAddB a amt, st => { st with store := set_credits st.store a (st.regB + amt) }
  | .hincrbyA a amt, st =>
      { st with store := set_credits st.store a (get_credits st.store a + amt),
                regA := get_credits st.store a + amt }
  | .hincrbyB a amt, st =>
      { st with store := set_credits st.store a (get_credits st.store a + amt),
                regB := get_credits st.store a + amt }

/-- Run a schedule of atomic steps. -/
def runSchedule (acts : List CAction) (st : CState) : CState :=
  acts.foldl (fun st a => applyAction a st) st

/-- Client A performing `AdminCreditManager.admin_add_credits(address, amount)`:
a non-atomic read followed by a write of read-value + amount. -/
def adminAddProgA (address : String) (amount : Int) : List CAction :=
  [.readA address, .writeAddA address amount]

/-- Client B performing `AdminCreditManager.admin_add_credits(address, amount)`. -/
def adminAddProgB (address : String) (amount : Int) : List CAction :=
  [.readB address, .writeAddB address amount]

/-- Client A performing `ModernRedisService.add_credits(address, amount)`
on the Redis path: one atomic HINCRBY. -/
def serviceAddProgA (address : String) (amount : Int) : List CAction :=
  [.hincrbyA address amount]

/-- Client B performing `ModernRedisService.add_credits(address, amount)`. -/
def serviceAddProgB (address : String) (amount : Int) : List CAction :=
  [.hincrbyB address amount]

/-- All interleavings of two sequential programs (each program's own order is
preserved; steps of the two may alternate arbitrarily). -/
def interleavings {α : Type} : List α → List α → List (List α)
  | [], ys => [ys]
  | x :: xs, [] => [x :: xs]
  | x :: xs, y :: ys =>
      (interleavings xs (y :: ys)).map (fun l => x :: l) ++
      (interleavings (x :: xs) ys).map (fun l => y :: l)
termination_by xs ys => xs.length + ys.length

end Concurrency

/-- C3 counterexample: the add operation actually used by the payment
handlers, `AdminCreditManager.admin_add_credits`, is a plain read-modify-write
with no WATCH guard; the interleaving A-read, B-read, A-write, B-write of two
concurrent adds of 1 and 2 starting from balance 0 is a valid interleaving
and ends at balance 2, not 0 + 1 + 2 — an update is lost, so the adds are not
atomic under concurrent delivery. -/
theorem C3_admin_add_not_atomic_counterexample :
    [Concurrency.CAction.readA "0xab", .readB "0xab",
     .writeAddA "0xab" 1, .writeAddB "0xab" 2] ∈
      Concurrency.interleavings
        (Concurrency.adminAddProgA "0xab" 1) (Concurrency.adminAddProgB "0xab" 2) ∧
    get_credits [("0xab", (0 : Int))] "0xab" = 0 ∧
    get_credits (Concurrency.runSchedule
        [Concurrency.CAction.readA "0xab", .readB "0xab",
         .writeAddA "0xab" 1, .writeAddB "0xab" 2]
        ⟨[("0xab", (0 : Int))], 0, 0⟩).store "0xab" = 2 ∧
    (2 : Int) ≠ 0 + 1 + 2 := by
  refine ⟨?_, ?_, ?_, by decide⟩
  · simp [Concurrency.interleavings, Concurrency.adminAddProgA,
      Concurrency.adminAddProgB]
  · simp only [get_credits, ModernRedisService.get_credits, userKey, toLower_eval]
    decide
  · simp only [Concurrency.runSchedule, Concurrency.applyAction, List.foldl,
      get_credits, set_credits, ModernRedisService.get_credits,
      ModernRedisService.set_credits, userKey, toLower_eval]
    decide

/-- C3 amended: the atomic HINCRBY add of `ModernRedisService.add_credits` is
the concurrency-safe one — under every interleaving of two concurrent
HINCRBY adds of `a` and `b` starting from balance `c`, the final balance is
`c + a + b` and no update is lost. -/
theorem C3_service_add_atomic (address : String) (s : Store) (a b c : Int)
    (hc : get_credits s address = c)
    (sched : List Concurrency.CAction)
    (hsched : sched ∈ Concurrency.interleavings
      (Concurrency.serviceAddProgA address a) (Concurrency.serviceAddProgB address b)) :
    get_credits (Concurrency.runSchedule sched ⟨s, 0, 0⟩).store address = c + a + b := by
  simp [Concurrency.interleavings, Concurrency.serviceAddProgA,
    Concurrency.serviceAddProgB] at hsched
  have hgs : ∀ (t : Store) (v : Int),
      get_credits (set_credits t address v) address = v := fun t v => get_set_same t address v
  rcases hsched with h | h <;> subst h <;>
    simp [Concurrency.runSchedule, Concurrency.applyAction, hgs, hc] <;> omega

/-- Witness for the amended C3 at a concrete schedule: two atomic adds of 3
and 4 from balance 5 end at 12 in the B-then-A interleaving. -/
theorem C3_service_add_atomic_witness :
    get_credits (Concurrency.runSchedule
        [Concurrency.CAction.hincrbyB "0xab" 4, .hincrbyA "0xab" 3]
        ⟨[("0xab", (5 : Int))], 0, 0⟩).store "0xab" = 12 := by
  refine C3_service_add_atomic "0xab" [("0xab", (5 : Int))] 3 4 5 ?_ _ ?_
  · simp only [get_credits, ModernRedisService.get_credits, userKey, toLower_eval]
    decide
  · simp [Concurrency.interleavings, Concurrency.serviceAddProgA,
      Concurrency.serviceAddProgB]

/-! ### C4 and C8: the Redis command sequences of the credit-update paths -/

/-- Redis commands, as issued by the four handler files.  `ex` on `set` is
the TTL argument (`ex=86400` in Python), `none` when no expiry is given. -/
inductive RedisCmd where
  | watch (keys : List String)
  | get (key : String)
  | existsCmd (key : String)
  | hget (key field : String)
  | multi
  | set (key value : String) (ex : Option Nat)
  | hset (key field value : String)
  | lpush (key value : String)
  | ltrim (key : String) (start stop : Int)
  | exec
deriving DecidableEq, Repr

/-- `credits:{buyer.lower()}` — the plain string key used by celo_handler.py
(line 155); note this is not the `user:{addr}` hash used by the Redis
service. -/
def creditKey (address : String) : String := "credits:" ++ address.toLower

/-- `user:{address.lower()}` — the hash key used by ModernRedisService. -/
def userHashKey (address : String) : String := "user:" ++ address.toLower

/-- `processed_tx:44787:{tx_hash}` (celo_handler.py line 111). -/
def celoProcessedKey (txHash : String) : String := "processed_tx:44787:" ++ txHash

/-- `credited:session:{session_id}` (stripe_handler.py lines 170 and 250). -/
def stripeSessionKey (sessionId : String) : String := "credited:session:" ++ sessionId

/-- `base_pay_processed:{payment_id}` (base_pay_handler.py line 110). -/
def basePayProcessedKey (paymentId : String) : String :=
  "base_pay_processed:" ++ paymentId

/-- `celo_history:{buyer.lower()}` (celo_handler.py line 175). -/
def celoHistoryKey (address : String) : String := "celo_history:" ++ address.toLower

/-- `base_pay_history:{address.lower()}` (redis_service.py `_build_key` with
the BASE_PAY_HISTORY namespace). -/
def basePayHistoryKey (address : String) : String :=
  "base_pay_history:" ++ address.toLower

/-- Commands issued by `ModernRedisService.set_credits` (redis_service.py
lines 238-241): a transactional redis-py pipeline (MULTI/EXEC) around two
HSETs. -/
def setCreditsCommands (address : String) (amount : Int) (ts : String) :
    List RedisCmd :=
  [.multi, .hset (userHashKey address) "credits" (toString amount),
   .hset (userHashKey address) "updated_at" ts, .exec]

/-- Commands issued by `AdminCreditManager.admin_add_credits`: a plain
`get_credits` (HGET) followed by `set_credits`. -/
def adminAddCommands (address : String) (newBalance : Int) (ts : String) :
    List RedisCmd :=
  .hget (userHashKey address) "credits" :: setCreditsCommands address newBalance ts

/-- The credit-update command sequence of the Stripe webhook
(stripe_handler.py lines 169-183): idempotency GET, admin add, marker SET
with a 24h TTL. -/
def stripeWebhookCreditCommands (sessionId wallet : String) (newBalance : Int)
    (ts : String) : List RedisCmd :=
  .get (stripeSessionKey sessionId) ::
    adminAddCommands wallet newBalance ts ++
    [.set (stripeSessionKey sessionId) "1" (some 86400)]

/-- The credit-update command sequence of `process_base_payment_data`
(base_pay_handler.py lines 109-144): idempotency EXISTS, admin add, marker
SET with a 24h TTL, history LPUSH/LTRIM. -/
def basePayCreditCommands (paymentId payer : String) (newBalance : Int)
    (ts historyJson : String) : List RedisCmd :=
  .existsCmd (basePayProcessedKey paymentId) ::
    adminAddCommands payer newBalance ts ++
    [.set (basePayProcessedKey paymentId) "processed" (some 86400),
     .lpush (basePayHistoryKey payer) historyJson,
     .ltrim (basePayHistoryKey payer) 0 99]

/-- The credit-update command sequence of the web3_auth `/credits/add`
endpoint (web3_auth.py lines 279-280): plain get_credits then set_credits,
no idempotency key at all. -/
def web3AuthCreditAddCommands (address : String) (newTotal : Int) (ts : String) :
    List RedisCmd :=
  .hget (userHashKey address) "credits" :: setCreditsCommands address newTotal ts

/-- The credit-update command sequence of the WATCH/MULTI/EXEC body in
`check_payment_status` (celo_handler.py lines 151-188). -/
def celoCreditUpdateCommands (txHash buyer : String) (newCredits : Int)
    (historyJson : String) : List RedisCmd :=
  [.watch [creditKey buyer, celoProcessedKey txHash],
   .get (celoProcessedKey txHash),
   .get (creditKey buyer),
   .multi,
   .set (creditKey buyer) (toString newCredits) none,
   .set (celoProcessedKey txHash) "1" none,
   .lpush (celoHistoryKey buyer) historyJson,
   .ltrim (celoHistoryKey buyer) 0 49,
   .exec]

/-- Does a command WATCH the given key? -/
def isWatchOn (key : String) : RedisCmd → Bool
  | .watch keys => keys.contains key
  | _ => false

/-- Is the command a WATCH at all? -/
def isWatch : RedisCmd → Bool
  | .watch _ => true
  | _ => false

/-- Is the command MULTI? -/
def isMulti : RedisCmd → Bool
  | .multi => true
  | _ => false

/-- Is the command EXEC? -/
def isExec : RedisCmd → Bool
  | .exec => true
  | _ => false

/-- The optimistic-lock shape the spec describes: the sequence WATCHes the
credit key and brackets its write in MULTI/EXEC (the retry-on-WatchError
wrapper only makes sense when a WATCH was issued). -/
def usesWatchRetryUpdate (t : List RedisCmd) (key : String) : Bool :=
  t.any (isWatchOn key) && t.any isMulti && t.any isExec

/-- C4 counterexample: the Stripe webhook's credit update issues no WATCH at
all (its commands are GET, HGET, MULTI, HSET, HSET, EXEC, SET), so it is not
the watch-read-write-exec retry loop the claim says all four files share. -/
theorem C4_stripe_has_no_watch_counterexample :
    (stripeWebhookCreditCommands "cs_1" "0xab" 7 "t").any isWatch = false ∧
    usesWatchRetryUpdate (stripeWebhookCreditCommands "cs_1" "0xab" 7 "t")
      (userHashKey "0xab") = false := by
  constructor <;>
    simp [stripeWebhookCreditCommands, adminAddCommands, setCreditsCommands,
      usesWatchRetryUpdate, isWatch, isWatchOn, isMulti, isExec]

/-- C4 amended: only celo_handler.py performs its credit update inside a
WATCH/MULTI/EXEC loop on the credit key; the credit updates of
stripe_handler.py, base_pay_handler.py and web3_auth.py issue no WATCH
anywhere (they are plain read-then-write through AdminCreditManager /
set_credits). -/
theorem C4_watch_loop_only_in_celo (txHash buyer sessionId wallet paymentId
    payer address ts historyJson : String) (n : Int) :
    usesWatchRetryUpdate (celoCreditUpdateCommands txHash buyer n historyJson)
      (creditKey buyer) = true ∧
    (stripeWebhookCreditCommands sessionId wallet n ts).any isWatch = false ∧
    (basePayCreditCommands paymentId payer n ts historyJson).any isWatch = false ∧
    (web3AuthCreditAddCommands address n ts).any isWatch = false := by
  refine ⟨?_, ?_, ?_, ?_⟩ <;>
    simp [celoCreditUpdateCommands, stripeWebhookCreditCommands,
      basePayCreditCommands, web3AuthCreditAddCommands, adminAddCommands,
      setCreditsCommands, usesWatchRetryUpdate, isWatch, isWatchOn, isMulti,
      isExec, List.contains]

/-- TTL carried by a SET command. -/
def cmdTTL : RedisCmd → Option Nat
  | .set _ _ ex => ex
  | _ => none

/-- The processed-marker SET of the Stripe webhook (stripe_handler.py
line 183): `redis_service.set(session_key, '1', ex=86400)`. -/
def stripeWebhookMarker (sessionId : String) : RedisCmd :=
  .set (stripeSessionKey sessionId) "1" (some 86400)

/-- The processed-marker SET of the Stripe session check (stripe_handler.py
line 295). -/
def stripeSessionCheckMarker (sessionId : String) : RedisCmd :=
  .set (stripeSessionKey sessionId) "1" (some 86400)

/-- The processed-marker SET of Base Pay (base_pay_handler.py line 126):
`redis_service.set(processed_key, "processed", ex=86400)`. -/
def basePayMarker (paymentId : String) : RedisCmd :=
  .set (basePayProcessedKey paymentId) "processed" (some 86400)

/-- The processed-marker SET of the CELO handler (celo_handler.py line 172):
`pipe.set(processed_key, '1')` — with no `ex` argument. -/
def celoProcessedMarker (txHash : String) : RedisCmd :=
  .set (celoProcessedKey txHash) "1" none

/-- C8 counterexample: the CELO path's processed marker is set with no TTL —
`pipe.set(processed_key, '1')` carries no expiry, contradicting the claim
that all three provider paths set their processed key with a TTL. -/
theorem C8_celo_marker_has_no_ttl_counterexample :
    cmdTTL (celoProcessedMarker "0xdead") = none ∧
    celoProcessedMarker "0xdead" ∈ celoCreditUpdateCommands "0xdead" "0xab" 12 "h" := by
  constructor
  · rfl
  · simp [celoProcessedMarker, celoCreditUpdateCommands]

/-- C8 amended: each processing path marks a processed payment by a single
SET of its provider-specific processed-identifier key, and that SET appears
in the path's command sequence; the Stripe webhook, Stripe session check and
Base Pay markers carry a 24-hour TTL (ex=86400), but the CELO marker is set
with no TTL. -/
theorem C8_processed_markers (sessionId paymentId txHash wallet payer buyer
    ts historyJson : String) (n : Int) :
    cmdTTL (stripeWebhookMarker sessionId) = some 86400 ∧
    cmdTTL (stripeSessionCheckMarker sessionId) = some 86400 ∧
    cmdTTL (basePayMarker paymentId) = some 86400 ∧
    cmdTTL (celoProcessedMarker txHash) = none ∧
    stripeWebhookMarker sessionId ∈ stripeWebhookCreditCommands sessionId wallet n ts ∧
    basePayMarker paymentId ∈ basePayCreditCommands paymentId payer n ts historyJson ∧
    celoProcessedMarker txHash ∈ celoCreditUpdateCommands txHash buyer n historyJson := by
  refine ⟨rfl, rfl, rfl, rfl, ?_, ?_, ?_⟩ <;>
    simp [stripeWebhookMarker, basePayMarker, celoProcessedMarker,
      stripeWebhookCreditCommands, basePayCreditCommands,
      celoCreditUpdateCommands, adminAddCommands, setCreditsCommands]

/-! ### C2: idempotent webhook/callback processing -/

/-- Full system state seen by the payment handlers: the credit store, the
plain string keyspace (processed markers, customer ids, the CELO
`credits:{addr}` strings), and the history lists (modelled as a log of
LPUSHed entries, newest first; LTRIM only bounds their length and is not
modelled). -/
structure SysState where
  credits : Store
  kv : List (String × String)
  history : List (String × String)
deriving Repr

/-- GET on the plain string keyspace. -/
def kvGet (kv : List (String × String)) (key : String) : Option String :=
  (kv.find? (fun p => p.1 == key)).map (fun p => p.2)

/-- SET on the plain string keyspace (TTLs do not affect the value while the
key lives and are tracked separately, see the C8 section). -/
def kvSet (kv : List (String × String)) (key value : String) :
    List (String × String) :=
  (key, value) :: kv

/-- `stripe_customer:{address.lower()}` (stripe_handler.py line 107). -/
def stripeCustomerKey (address : String) : String :=
  "stripe_customer:" ++ address.toLower

/-- Two appended strings with different head characters are different. -/
theorem append_ne_of_head_ne {c d : Char} (p q a b : String)
    (hp : p.data.head? = some c) (hq : q.data.head? = some d) (hcd : c ≠ d) :
    p ++ a ≠ q ++ b := by
  intro he
  have hdata : (p ++ a).data = (q ++ b).data := congrArg String.data he
  rw [String.data_append, String.data_append] at hdata
  cases hpd : p.data with
  | nil => rw [hpd] at hp; simp at hp
  | cons x xs =>
    cases hqd : q.data with
    | nil => rw [hqd] at hq; simp at hq
    | cons y ys =>
      rw [hpd] at hp hdata
      rw [hqd] at hq hdata
      simp at hp hq
      simp at hdata
      exact hcd (hp ▸ hq ▸ hdata.1)

/-- The `checkout.session.completed` payload fields the webhook uses:
session id, metadata (tier, credits — already parsed to an integer — and
wallet address), and the Stripe customer id. -/
structure StripeSessionObj where
  id : String
  tier : Option String
  credits : Option Int
  wallet_address : Option String
  customer : Option String
deriving Repr

/-- JSON responses of the webhook's `checkout.session.completed` branch. -/
inductive StripeWebhookResp where
  | skippedMissingMetadata
  | alreadyCredited
  | completed (credits_added new_total : Int)
deriving DecidableEq, Repr

/-- The credit-relevant branch of `stripe_webhook`
(stripe_handler.py lines 149-210): missing metadata is skipped; an existing
`credited:session:{id}` marker short-circuits to already_credited; otherwise
credits are added through AdminCreditManager, the marker is set, and the
customer id is stored if absent. -/
def stripe_webhook_completed (st : SysState) (session : StripeSessionObj) :
    SysState × StripeWebhookResp :=
  match session.tier, session.credits, session.wallet_address with
  | some _, some credits, some wallet =>
      let session_key := stripeSessionKey session.id
      if (kvGet st.kv session_key).isSome then
        (st, .alreadyCredited)
      else
        let added := AdminCreditManager.admin_add_credits st.credits wallet
          credits "Stripe Payment"
        let st1 : SysState :=
          { st with credits := added.1, kv := kvSet st.kv session_key "1" }
        let st2 : SysState :=
          match session.customer with
          | some cust =>
              if (kvGet st1.kv (stripeCustomerKey wallet)).isNone then
                { st1 with kv := kvSet st1.kv (stripeCustomerKey wallet) cust }
              else st1
          | none => st1
        (st2, .completed credits added.2.new_balance)
  | _, _, _ => (st, .skippedMissingMetadata)

/-- Responses of the session-check endpoint's credit path. -/
inductive SessionCheckResp where
  | alreadyCredited (credits : Int)
  | success (credits : Int)
  | noCreditsInMetadata
  | otherStatus (payment_status : String)
deriving DecidableEq, Repr

/-- The credit path of `check_session_status` (stripe_handler.py
lines 243-310): an existing `credited:session:{id}` marker returns the
current balance with "Credits already added"; a paid session with credits in
its metadata is credited through AdminCreditManager and marked.  (Retrieval
failures 404/400 happen before any mutation and are not modelled.) -/
def check_session_status (st : SysState) (session_id address : String)
    (payment_status : String) (metaCredits : Option Int) :
    SysState × SessionCheckResp :=
  let credit_key := stripeSessionKey session_id
  if (kvGet st.kv credit_key).isSome then
    (st, .alreadyCredited (AdminCreditManager.admin_get_credits st.credits address).credits)
  else if payment_status == "paid" then
    match metaCredits with
    | none => (st, .noCreditsInMetadata)
    | some credits =>
        let added := AdminCreditManager.admin_add_credits st.credits address
          credits "Stripe Payment"
        ({ st with credits := added.1, kv := kvSet st.kv credit_key "1" },
         .success added.2.new_balance)
  else (st, .otherStatus payment_status)

/-- BASE_PRICING base prices in integer cents (config/pricing.py lines 7-23). -/
def base_price_cents : String → Option Int
  | "starter" => some 50
  | "pro" => some 499
  | "unlimited" => some 999
  | _ => none

/-- BASE_PRICING credits per tier (config/pricing.py lines 7-23). -/
def pricing_credits : String → Option Int
  | "starter" => some 1
  | "pro" => some 12
  | "unlimited" => some 30
  | _ => none

/-- The 30%-discounted Base Pay price, `round(base * 0.7, 2)`, in cents
(config/pricing.py lines 26-34: 0.35, 3.49, 6.99). -/
def base_pay_discounted_cents : String → Option Int
  | "starter" => some 35
  | "pro" => some 349
  | "unlimited" => some 699
  | _ => none

/-- `validate_payment_amount(tier, "base_pay", amount)` (config/pricing.py
lines 69-90): the amount must be within 0.01 of the discounted or base
price; on cent-valued amounts that is equality with one of the two. -/
def validate_payment_amount_base_pay (tier : String) (amountCents : Int) : Bool :=
  match base_pay_discounted_cents tier, base_price_cents tier with
  | some d, some b => amountCents == d || amountCents == b
  | _, _ => false

/-- The fields `process_base_payment_data` reads from the Base Pay callback
payload (base_pay_handler.py lines 73-81).  `recipient` is the payload's
`to` field and `payer` its `from` field. -/
structure BasePayment where
  id : Option String
  status : Option String
  amountCents : Option Int
  recipient : Option String
  payer : Option String
  tier : Option String
deriving Repr

/-- Responses of `process_base_payment_data`. -/
inductive BasePayResp where
  | missingData
  | invalidTier
  | amountMismatch
  | alreadyProcessed
  | success (credits_added new_balance : Int)
  | failed
  | otherStatus (s : String)
deriving DecidableEq, Repr

/-- `process_base_payment_data` (base_pay_handler.py lines 71-160): field and
tier validation, then for a completed payment amount validation (the optional
blockchain verification only logs and has no effect), the
`base_pay_processed:{id}` idempotency check, the credit through
AdminCreditManager on the lowercased payer, the marker SET, and the history
push. -/
def process_base_payment_data (st : SysState) (p : BasePayment) :
    SysState × BasePayResp :=
  match p.id, p.status, p.amountCents, p.recipient, p.payer, p.tier with
  | some pid, some status, some amount, some _, some payer, some tier =>
      if !(["starter", "pro", "unlimited"].contains tier) then
        (st, .invalidTier)
      else if status == "completed" then
        if !(validate_payment_amount_base_pay tier amount) then
          (st, .amountMismatch)
        else
          let processed_key := basePayProcessedKey pid
          if (kvGet st.kv processed_key).isSome then
            (st, .alreadyProcessed)
          else
            let credits_to_add := (pricing_credits tier).getD 0
            let added := AdminCreditManager.admin_add_credits st.credits
              payer.toLower credits_to_add "Base Pay Payment"
            ({ credits := added.1,
               kv := kvSet st.kv processed_key "processed",
               history := (basePayHistoryKey payer.toLower, pid) :: st.history },
             .success credits_to_add added.2.new_balance)
      else if status == "failed" then (st, .failed)
      else (st, .otherStatus status)
  | _, _, _, _, _, _ => (st, .missingData)

/-- A `CreditsPurchased` event as decoded from the receipt
(celo_handler.py lines 136-139). -/
structure CeloEvent where
  buyer : String
  packageTier : String
deriving Repr

/-- The transaction receipt data `check_payment_status` consumes. -/
structure CeloReceipt where
  status : Nat
  events : List CeloEvent
deriving Repr

/-- Statuses returned by `check_payment_status`. -/
inductive CeloStatus where
  | processed
  | pending
  | failed
  | no_events
  | invalid_package
deriving DecidableEq, Repr

/-- `TIER_MAPPING.get(package_tier, package_tier)` (celo_handler.py
lines 94-96). -/
def TIER_MAPPING_get (t : String) : String :=
  if t == "don" then "unlimited" else t

/-- Credits of the celo `PACKAGES` dict (celo_handler.py lines 99-103). -/
def celoPackageCredits : String → Option Int
  | "starter" => some 1
  | "pro" => some 12
  | "unlimited" => some 30
  | _ => none

/-- `int(pipe.get(credit_key) or 0)` (celo_handler.py line 164); all values
this handler ever writes are decimal integers. -/
def celoParseCredits : Option String → Int
  | none => 0
  | some v => v.toInt?.getD 0

/-- `check_payment_status` (celo_handler.py lines 105-207): the
`processed_tx:44787:{tx}` marker short-circuits; otherwise the receipt is
examined (missing → pending, status 0 → failed, no events → no_events,
unknown tier → invalid_package) and the WATCH/MULTI/EXEC body — run here
without interference, the in-loop re-check reading the same state — updates
the `credits:{buyer}` string key, sets the marker, and pushes history. -/
def celo_check_payment_status (st : SysState) (txHash : String)
    (receipt : Option CeloReceipt) : SysState × CeloStatus :=
  let processed_key := celoProcessedKey txHash
  if (kvGet st.kv processed_key).isSome then
    (st, .processed)
  else
    match receipt with
    | none => (st, .pending)
    | some receipt =>
        if receipt.status == 0 then (st, .failed)
        else
          match receipt.events with
          | [] => (st, .no_events)
          | event :: _ =>
              let buyer := event.buyer
              let mapped_tier := TIER_MAPPING_get event.packageTier
              match celoPackageCredits mapped_tier with
              | none => (st, .invalid_package)
              | some credits_to_add =>
                  if (kvGet st.kv processed_key).isSome then
                    (st, .processed)
                  else
                    let ckey := creditKey buyer
                    let current_credits := celoParseCredits (kvGet st.kv ckey)
                    let new_credits := current_credits + credits_to_add
                    let kv1 := kvSet st.kv ckey (toString new_credits)
                    let kv2 := kvSet kv1 processed_key "1"
                    ({ st with
                        kv := kv2,
                        history := (celoHistoryKey buyer, txHash) :: st.history },
                     .processed)

/-- Reading the key just set. -/
theorem kvGet_kvSet_same (kv : List (String × String)) (k v : String) :
    kvGet (kvSet kv k v) k = some v := by
  simp [kvGet, kvSet, List.find?_cons]

/-- Setting one key does not affect reads of a different key. -/
theorem kvGet_kvSet_ne (kv : List (String × String)) (k k' v : String)
    (h : (k == k') = false) :
    kvGet (kvSet kv k v) k' = kvGet kv k' := by
  simp [kvGet, kvSet, List.find?_cons, h]

/-- The Stripe customer key and the session marker key never collide. -/
theorem stripeCustomerKey_ne_sessionKey (wallet sessionId : String) :
    (stripeCustomerKey wallet == stripeSessionKey sessionId) = false := by
  have h : stripeCustomerKey wallet ≠ stripeSessionKey sessionId := by
    have := append_ne_of_head_ne (c := 's') (d := 'c') "stripe_customer:"
      "credited:session:" wallet.toLower sessionId (by decide) (by decide) (by decide)
    simpa [stripeCustomerKey, stripeSessionKey] using this
  simpa using h

/-- The CELO processed marker key and the CELO credit key never collide. -/
theorem celoProcessedKey_ne_creditKey (txHash buyer : String) :
    (celoProcessedKey txHash == creditKey buyer) = false := by
  have h : celoProcessedKey txHash ≠ creditKey buyer := by
    have := append_ne_of_head_ne (c := 'p') (d := 'c') "processed_tx:44787:"
      "credits:" txHash buyer.toLower (by decide) (by decide) (by decide)
    simpa [celoProcessedKey, creditKey] using this
  simpa using h

/-- Idempotence of the Stripe webhook's `checkout.session.completed` branch:
an existing `credited:session:{id}` marker short-circuits with no state
change, a fresh session is credited once and marked, and re-processing the
same session afterwards returns already_credited and changes nothing. -/
theorem stripe_webhook_completed_idem (st : SysState) (session : StripeSessionObj)
    (tier : String) (credits : Int) (wallet : String)
    (ht : session.tier = some tier) (hc : session.credits = some credits)
    (hw : session.wallet_address = some wallet) :
    ((kvGet st.kv (stripeSessionKey session.id)).isSome = true →
      stripe_webhook_completed st session = (st, .alreadyCredited)) ∧
    (kvGet st.kv (stripeSessionKey session.id) = none →
      (stripe_webhook_completed st session).2 =
        .completed credits (get_credits st.credits wallet + credits) ∧
      (kvGet (stripe_webhook_completed st session).1.kv
          (stripeSessionKey session.id)).isSome = true ∧
      stripe_webhook_completed (stripe_webhook_completed st session).1 session =
        ((stripe_webhook_completed st session).1, .alreadyCredited)) := by
  have hblock : ∀ st' : SysState,
      (kvGet st'.kv (stripeSessionKey session.id)).isSome = true →
      stripe_webhook_completed st' session = (st', .alreadyCredited) := by
    intro st' hmark
    simp [stripe_webhook_completed, ht, hc, hw, hmark]
  refine ⟨hblock st, ?_⟩
  intro hfresh
  have hfresh' : (kvGet st.kv (stripeSessionKey session.id)).isSome = false := by
    simp [hfresh]
  have hmark : (kvGet (stripe_webhook_completed st session).1.kv
      (stripeSessionKey session.id)).isSome = true := by
    cases hcust : session.customer with
    | none =>
        simp [stripe_webhook_completed, ht, hc, hw, hfresh', hcust, kvGet_kvSet_same]
    | some cust =>
        by_cases habs :
            (kvGet (kvSet st.kv (stripeSessionKey session.id) "1")
              (stripeCustomerKey wallet)).isNone = true
        · simp [stripe_webhook_completed, ht, hc, hw, hfresh', hcust, habs,
            kvGet_kvSet_ne _ _ _ _ (stripeCustomerKey_ne_sessionKey wallet session.id),
            kvGet_kvSet_same]
        · simp [stripe_webhook_completed, ht, hc, hw, hfresh', hcust, habs,
            kvGet_kvSet_same]
  refine ⟨?_, hmark, hblock _ hmark⟩
  cases hcust : session.customer with
  | none =>
      simp [stripe_webhook_completed, ht, hc, hw, hfresh', hcust,
        AdminCreditManager.admin_add_credits, get_credits_toLower]
  | some cust =>
      by_cases habs :
          (kvGet (kvSet st.kv (stripeSessionKey session.id) "1")
            (stripeCustomerKey wallet)).isNone = true
      · simp [stripe_webhook_completed, ht, hc, hw, hfresh', hcust, habs,
          AdminCreditManager.admin_add_credits, get_credits_toLower]
      · simp [stripe_webhook_completed, ht, hc, hw, hfresh', hcust, habs,
          AdminCreditManager.admin_add_credits, get_credits_toLower]

/-- Idempotence of the Stripe session-check endpoint's credit path. -/
theorem check_session_status_idem (st : SysState)
    (session_id address : String) (credits : Int) :
    ((kvGet st.kv (stripeSessionKey session_id)).isSome = true →
      check_session_status st session_id address "paid" (some credits) =
        (st, .alreadyCredited
          (AdminCreditManager.admin_get_credits st.credits address).credits)) ∧
    (kvGet st.kv (stripeSessionKey session_id) = none →
      (check_session_status st session_id address "paid" (some credits)).2 =
        .success (get_credits st.credits address + credits) ∧
      check_session_status
          (check_session_status st session_id address "paid" (some credits)).1
          session_id address "paid" (some credits) =
        ((check_session_status st session_id address "paid" (some credits)).1,
         .alreadyCredited (AdminCreditManager.admin_get_credits
           (check_session_status st session_id address "paid" (some credits)).1.credits
           address).credits)) := by
  have hblock : ∀ st' : SysState,
      (kvGet st'.kv (stripeSessionKey session_id)).isSome = true →
      check_session_status st' session_id address "paid" (some credits) =
        (st', .alreadyCredited
          (AdminCreditManager.admin_get_credits st'.credits address).credits) := by
    intro st' hmark
    simp [check_session_status, hmark]
  constructor
  · exact hblock st
  · intro hfresh
    have hfresh' : (kvGet st.kv (stripeSessionKey session_id)).isSome = false := by
      simp [hfresh]
    have hmark : (kvGet (check_session_status st session_id address "paid"
        (some credits)).1.kv (stripeSessionKey session_id)).isSome = true := by
      simp [check_session_status, hfresh', kvGet_kvSet_same]
    constructor
    · simp [check_session_status, hfresh',
        AdminCreditManager.admin_add_credits, get_credits_toLower]
    · exact hblock _ hmark

/-- Idempotence of `process_base_payment_data` for a valid completed
payment. -/
theorem process_base_payment_idem (st : SysState) (p : BasePayment)
    (pid : String) (amount : Int) (recipient payer tier : String)
    (h1 : p.id = some pid) (h2 : p.status = some "completed")
    (h3 : p.amountCents = some amount) (h4 : p.recipient = some recipient)
    (h5 : p.payer = some payer) (h6 : p.tier = some tier)
    (htier : tier = "starter" ∨ tier = "pro" ∨ tier = "unlimited")
    (hamount : validate_payment_amount_base_pay tier amount = true) :
    ((kvGet st.kv (basePayProcessedKey pid)).isSome = true →
      process_base_payment_data st p = (st, .alreadyProcessed)) ∧
    (kvGet st.kv (basePayProcessedKey pid) = none →
      (process_base_payment_data st p).2 =
        .success ((pricing_credits tier).getD 0)
          (get_credits st.credits payer + (pricing_credits tier).getD 0) ∧
      process_base_payment_data (process_base_payment_data st p).1 p =
        ((process_base_payment_data st p).1, .alreadyProcessed)) := by
  have hblock : ∀ st' : SysState,
      (kvGet st'.kv (basePayProcessedKey pid)).isSome = true →
      process_base_payment_data st' p = (st', .alreadyProcessed) := by
    intro st' hmark
    rcases htier with h | h | h <;> subst h <;>
      simp [process_base_payment_data, h1, h2, h3, h4, h5, h6, hamount, hmark]
  refine ⟨hblock st, ?_⟩
  intro hfresh
  have hfresh' : (kvGet st.kv (basePayProcessedKey pid)).isSome = false := by
    simp [hfresh]
  have hmark : (kvGet (process_base_payment_data st p).1.kv
      (basePayProcessedKey pid)).isSome = true := by
    rcases htier with h | h | h <;> subst h <;>
      simp [process_base_payment_data, h1, h2, h3, h4, h5, h6, hamount,
        hfresh', kvGet_kvSet_same]
  refine ⟨?_, hblock _ hmark⟩
  rcases htier with h | h | h <;> subst h <;>
    simp [process_base_payment_data, h1, h2, h3, h4, h5, h6, hamount,
      hfresh', AdminCreditManager.admin_add_credits, get_credits_toLower]

/-- Idempotence of the CELO `check_payment_status` crediting path. -/
theorem celo_check_payment_idem (st : SysState) (txHash : String)
    (r : CeloReceipt) (e : CeloEvent) (rest : List CeloEvent) (cta : Int)
    (hstatus : (r.status == 0) = false) (hev : r.events = e :: rest)
    (hcred : celoPackageCredits (TIER_MAPPING_get e.packageTier) = some cta) :
    ((kvGet st.kv (celoProcessedKey txHash)).isSome = true →
      celo_check_payment_status st txHash (some r) = (st, .processed)) ∧
    (kvGet st.kv (celoProcessedKey txHash) = none →
      (celo_check_payment_status st txHash (some r)).2 = .processed ∧
      kvGet (celo_check_payment_status st txHash (some r)).1.kv (creditKey e.buyer) =
        some (toString (celoParseCredits (kvGet st.kv (creditKey e.buyer)) + cta)) ∧
      celo_check_payment_status (celo_check_payment_status st txHash (some r)).1
          txHash (some r) =
        ((celo_check_payment_status st txHash (some r)).1, .processed)) := by
  have hblock : ∀ st' : SysState,
      (kvGet st'.kv (celoProcessedKey txHash)).isSome = true →
      celo_check_payment_status st' txHash (some r) = (st', .processed) := by
    intro st' hmark
    simp [celo_check_payment_status, hmark]
  refine ⟨hblock st, ?_⟩
  intro hfresh
  have hfresh' : (kvGet st.kv (celoProcessedKey txHash)).isSome = false := by
    simp [hfresh]
  have hmark : (kvGet (celo_check_payment_status st txHash (some r)).1.kv
      (celoProcessedKey txHash)).isSome = true := by
    simp [celo_check_payment_status, hstatus, hev, hcred, hfresh', kvGet_kvSet_same]
  refine ⟨?_, ?_, hblock _ hmark⟩
  · simp [celo_check_payment_status, hstatus, hev, hcred, hfresh']
  · simp [celo_check_payment_status, hstatus, hev, hcred, hfresh',
      kvGet_kvSet_ne _ _ _ _ (celoProcessedKey_ne_creditKey txHash e.buyer),
      kvGet_kvSet_same]

/-- C2: for each provider path — the Stripe webhook, the Stripe session
check, Base Pay processing, and the CELO payment check — once a payment
identifier has been credited and its processed marker set, processing the
same identifier again changes no state (so no further credits are added) and
returns the already-processed status; and a fresh identifier is credited
exactly once, with its marker set by the same call. -/
theorem C2_webhook_crediting_idempotent :
    (∀ (st : SysState) (session : StripeSessionObj) (tier : String)
        (credits : Int) (wallet : String),
      session.tier = some tier → session.credits = some credits →
      session.wallet_address = some wallet →
      kvGet st.kv (stripeSessionKey session.id) = none →
      (stripe_webhook_completed st session).2 =
        .completed credits (get_credits st.credits wallet + credits) ∧
      stripe_webhook_completed (stripe_webhook_completed st session).1 session =
        ((stripe_webhook_completed st session).1, .alreadyCredited)) ∧
    (∀ (st : SysState) (session_id address : String) (credits : Int),
      kvGet st.kv (stripeSessionKey session_id) = none →
      (check_session_status st session_id address "paid" (some credits)).2 =
        .success (get_credits st.credits address + credits) ∧
      check_session_status
          (check_session_status st session_id address "paid" (some credits)).1
          session_id address "paid" (some credits) =
        ((check_session_status st session_id address "paid" (some credits)).1,
         .alreadyCredited (AdminCreditManager.admin_get_credits
           (check_session_status st session_id address "paid" (some credits)).1.credits
           address).credits)) ∧
    (∀ (st : SysState) (p : BasePayment) (pid : String) (amount : Int)
        (recipient payer tier : String),
      p.id = some pid → p.status = some "completed" →
      p.amountCents = some amount → p.recipient = some recipient →
      p.payer = some payer → p.tier = some tier →
      (["starter", "pro", "unlimited"].contains tier) = true →
      validate_payment_amount_base_pay tier amount = true →
      kvGet st.kv (basePayProcessedKey pid) = none →
      (process_base_payment_data st p).2 =
        .success ((pricing_credits tier).getD 0)
          (get_credits st.credits payer + (pricing_credits tier).getD 0) ∧
      process_base_payment_data (process_base_payment_data st p).1 p =
        ((process_base_payment_data st p).1, .alreadyProcessed)) ∧
    (∀ (st : SysState) (txHash : String) (r : CeloReceipt) (e : CeloEvent)
        (rest : List CeloEvent) (cta : Int),
      (r.status == 0) = false → r.events = e :: rest →
      celoPackageCredits (TIER_MAPPING_get e.packageTier) = some cta →
      kvGet st.kv (celoProcessedKey txHash) = none →
      (celo_check_payment_status st txHash (some r)).2 = .processed ∧
      celo_check_payment_status (celo_check_payment_status st txHash (some r)).1
          txHash (some r) =
        ((celo_check_payment_status st txHash (some r)).1, .processed)) := by
  refine ⟨?_, ?_, ?_, ?_⟩
  · intro st session tier credits wallet ht hc hw hfresh
    have h := (stripe_webhook_completed_idem st session tier credits wallet
      ht hc hw).2 hfresh
    exact ⟨h.1, h.2.2⟩
  · intro st session_id address credits hfresh
    exact (check_session_status_idem st session_id address credits).2 hfresh
  · intro st p pid amount recipient payer tier h1 h2 h3 h4 h5 h6 htier hamount hfresh
    have htier' : tier = "starter" ∨ tier = "pro" ∨ tier = "unlimited" := by
      simpa using htier
    exact (process_base_payment_idem st p pid amount recipient payer tier
      h1 h2 h3 h4 h5 h6 htier' hamount).2 hfresh
  · intro st txHash r e rest cta hstatus hev hcred hfresh
    have h := (celo_check_payment_idem st txHash r e rest cta
      hstatus hev hcred).2 hfresh
    exact ⟨h.1, h.2.2⟩

/-- Witness for C2: on an empty system state, each of the four paths credits
a concrete payment once and returns the already-processed status when run a
second time on the resulting state. -/
theorem C2_webhook_crediting_idempotent_witness :
    (stripe_webhook_completed
        (stripe_webhook_completed ⟨[], [], []⟩
          ⟨"cs_1", some "pro", some 12, some "0xab", none⟩).1
        ⟨"cs_1", some "pro", some 12, some "0xab", none⟩ =
      ((stripe_webhook_completed ⟨[], [], []⟩
          ⟨"cs_1", some "pro", some 12, some "0xab", none⟩).1,
       .alreadyCredited)) ∧
    (check_session_status
        (check_session_status ⟨[], [], []⟩ "cs_2" "0xab" "paid" (some 12)).1
        "cs_2" "0xab" "paid" (some 12)).2 =
      .alreadyCredited (AdminCreditManager.admin_get_credits
        (check_session_status ⟨[], [], []⟩ "cs_2" "0xab" "paid" (some 12)).1.credits
        "0xab").credits ∧
    (process_base_payment_data
        (process_base_payment_data ⟨[], [], []⟩
          ⟨some "pay_1", some "completed", some 349, some "0xdead", some "0xab",
           some "pro"⟩).1
        ⟨some "pay_1", some "completed", some 349, some "0xdead", some "0xab",
         some "pro"⟩ =
      ((process_base_payment_data ⟨[], [], []⟩
          ⟨some "pay_1", some "completed", some 349, some "0xdead", some "0xab",
           some "pro"⟩).1,
       .alreadyProcessed)) ∧
    (celo_check_payment_status
        (celo_check_payment_status ⟨[], [], []⟩ "0xtx"
          (some ⟨1, [⟨"0xab", "don"⟩]⟩)).1
        "0xtx" (some ⟨1, [⟨"0xab", "don"⟩]⟩) =
      ((celo_check_payment_status ⟨[], [], []⟩ "0xtx"
          (some ⟨1, [⟨"0xab", "don"⟩]⟩)).1,
       .processed)) := by
  refine ⟨?_, ?_, ?_, ?_⟩
  · exact (C2_webhook_crediting_idempotent.1 ⟨[], [], []⟩
      ⟨"cs_1", some "pro", some 12, some "0xab", none⟩ "pro" 12 "0xab"
      rfl rfl rfl rfl).2
  · exact congrArg Prod.snd ((C2_webhook_crediting_idempotent.2.1 ⟨[], [], []⟩
      "cs_2" "0xab" 12 rfl).2)
  · exact (C2_webhook_crediting_idempotent.2.2.1 ⟨[], [], []⟩
      ⟨some "pay_1", some "completed", some 349, some "0xdead", some "0xab",
       some "pro"⟩ "pay_1" 349 "0xdead" "0xab" "pro"
      rfl rfl rfl rfl rfl rfl (by decide) (by decide) rfl).2
  · exact (C2_webhook_crediting_idempotent.2.2.2 ⟨[], [], []⟩ "0xtx"
      ⟨1, [⟨"0xab", "don"⟩]⟩ ⟨"0xab", "don"⟩ [] 30
      (by decide) rfl (by decide) rfl).2

/-! ### C6: the unified-wallet credit endpoints mutate and then fail -/

/-- Python `str.strip()`: drop whitespace from both ends (modelled on the
character list). -/
def pyStrip (s : String) : String :=
  ⟨((s.data.dropWhile Char.isWhitespace).reverse.dropWhile Char.isWhitespace).reverse⟩

/-- `normalize_address` (unified_wallet.py lines 45-49): `address.lower().strip()`
(the empty-address check is done by the caller before this, see the
endpoints). -/
def normalize_address (address : String) : String :=
  pyStrip address.toLower

/-- `normalized.startswith('0x')` on the character data. -/
def startswith_0x (s : String) : Bool :=
  match s.data with
  | '0' :: 'x' :: _ => true
  | _ => false

/-- The format test of `validate_address` (unified_wallet.py lines 51-59):
starts with `0x` and has length 42. -/
def validEthAddress (normalized : String) : Bool :=
  startswith_0x normalized && normalized.data.length == 42

/-- Responses of the unified-wallet credit endpoints. -/
inductive WalletResp where
  | json (address : String) (credits : Int) (delta : Int)
  | httpError (statusCode : Nat) (detail : String)
deriving DecidableEq, Repr

/-- Is the response the successful JSON one? -/
def WalletResp.isJson : WalletResp → Bool
  | .json _ _ _ => true
  | _ => false

/-- The local names bound in `add_credits` when its success response is built
(unified_wallet.py lines 178-197): the two parameters, `validated_address`
and `result`. -/
def addCreditsBoundLocals : List String :=
  ["address", "amount", "validated_address", "result"]

/-- The names the `add_credits` success response dereferences
(lines 193-197): `validated_address`, `new_credits`, `amount`. -/
def addCreditsResponseNames : List String :=
  ["validated_address", "new_credits", "amount"]

/-- The local names bound in `use_credits` when its success response is built
(unified_wallet.py lines 205-233): the two parameters, `validated_address`
and `new_balance`. -/
def useCreditsBoundLocals : List String :=
  ["address", "amount", "validated_address", "new_balance"]

/-- The names the `use_credits` success response dereferences
(lines 229-233). -/
def useCreditsResponseNames : List String :=
  ["validated_address", "new_credits", "amount"]

/-- POST /wallet/credits/add (unified_wallet.py lines 178-203): positive
amount check, address validation, `admin_add_credits`, then the JSON response
is built; every name it dereferences must be bound or Python raises
NameError, which the `except Exception` turns into HTTP 500. -/
def add_credits_endpoint (s : Store) (address : String) (amount : Int) :
    Store × WalletResp :=
  if amount ≤ 0 then (s, .httpError 400 "Amount must be positive")
  else if address.data.isEmpty then (s, .httpError 400 "Address is required")
  else
    let validated_address := normalize_address address
    if !(validEthAddress validated_address) then
      (s, .httpError 400 "Invalid Ethereum address format")
    else
      let added := AdminCreditManager.admin_add_credits s validated_address
        amount "API Add Credits"
      if addCreditsResponseNames.all (fun n => addCreditsBoundLocals.contains n) then
        (added.1, .json validated_address added.2.new_balance amount)
      else
        (added.1, .httpError 500 "Failed to add credits: name new_credits is not defined")

/-- POST /wallet/credits/use (unified_wallet.py lines 205-239): positive
amount check, address validation, spend through
`CreditManager.validate_and_spend_credit`; the raised 402 is caught (its
message contains "need credits") and re-raised as a 402 with the admin-read
balance, while a successful spend then builds the JSON response, which
dereferences the unbound `new_credits`. -/
def use_credits_endpoint (s : Store) (address : String) (amount : Int) :
    Store × WalletResp :=
  if amount ≤ 0 then (s, .httpError 400 "Amount must be positive")
  else if address.data.isEmpty then (s, .httpError 400 "Address is required")
  else
    let validated_address := normalize_address address
    if !(validEthAddress validated_address) then
      (s, .httpError 400 "Invalid Ethereum address format")
    else
      match CreditManager.validate_and_spend_credit s validated_address with
      | (.httpError _ _, s') =>
          (s', .httpError 402 ("Insufficient credits. Required: " ++ toString amount
            ++ ", Available: " ++
            toString (AdminCreditManager.admin_get_credits s' validated_address).credits))
      | (.ok new_balance, s') =>
          if useCreditsResponseNames.all (fun n => useCreditsBoundLocals.contains n) then
            (s', .json validated_address new_balance amount)
          else
            (s', .httpError 500 "Failed to use credits: name new_credits is not defined")

/-- Balance after an admin add, read back at the same address. -/
theorem get_credits_admin_add (s : Store) (address : String) (amount : Int)
    (ctx : String) :
    get_credits (AdminCreditManager.admin_add_credits s address amount ctx).1 address =
      get_credits s address + amount := by
  simp [AdminCreditManager.admin_add_credits, get_credits_toLower,
    set_credits_toLower, get_set_same]

/-- C6: for every syntactically valid address and positive amount, the
unified-wallet credit endpoints first mutate the stored balance — add adds
the amount, use spends one credit — and then fail with HTTP 500 because the
success response dereferences the undefined name `new_credits`; and on no
input whatsoever does either endpoint return its successful JSON response. -/
theorem C6_unified_wallet_mutates_then_500 (s : Store) (address : String)
    (amount : Int) :
    (0 < amount → address.data.isEmpty = false →
      validEthAddress (normalize_address address) = true →
      add_credits_endpoint s address amount =
        ((AdminCreditManager.admin_add_credits s (normalize_address address)
            amount "API Add Credits").1,
         .httpError 500 "Failed to add credits: name new_credits is not defined") ∧
      get_credits (add_credits_endpoint s address amount).1 (normalize_address address) =
        get_credits s (normalize_address address) + amount) ∧
    (0 < amount → address.data.isEmpty = false →
      validEthAddress (normalize_address address) = true →
      1 ≤ get_credits s (normalize_address address) →
      use_credits_endpoint s address amount =
        ((CreditManager.validate_and_spend_credit s (normalize_address address)).2,
         .httpError 500 "Failed to use credits: name new_credits is not defined") ∧
      get_credits (use_credits_endpoint s address amount).1 (normalize_address address) =
        get_credits s (normalize_address address) - 1) ∧
    (∀ (s' : Store) (a' : String) (m' : Int),
      (add_credits_endpoint s' a' m').2.isJson = false ∧
      (use_credits_endpoint s' a' m').2.isJson = false) := by
  have hnameAdd : ¬ (∀ x ∈ addCreditsResponseNames, x ∈ addCreditsBoundLocals) := by
    decide
  have hnameUse : ¬ (∀ x ∈ useCreditsResponseNames, x ∈ useCreditsBoundLocals) := by
    decide
  refine ⟨?_, ?_, ?_⟩
  · intro hpos hempty hvalid
    have hneg : ¬ amount ≤ 0 := by omega
    constructor
    · simp [add_credits_endpoint, hneg, hempty, hvalid, hnameAdd]
    · simp [add_credits_endpoint, hneg, hempty, hvalid, hnameAdd,
        get_credits_admin_add]
  · intro hpos hempty hvalid hbal
    have hneg : ¬ amount ≤ 0 := by omega
    have hnot : ¬ get_credits s (normalize_address address) < 1 := by omega
    have hspend := validate_and_spend_credit_eq s (normalize_address address)
    rw [if_neg hnot] at hspend
    constructor
    · simp [use_credits_endpoint, hneg, hempty, hvalid, hspend, hnameUse]
    · simp [use_credits_endpoint, hneg, hempty, hvalid, hspend, hnameUse,
        get_set_same]
  · intro s' a' m'
    constructor
    · by_cases h1 : m' ≤ 0
      · simp [add_credits_endpoint, h1, WalletResp.isJson]
      · by_cases h2 : a'.data.isEmpty
        · simp [add_credits_endpoint, h1, h2, WalletResp.isJson]
        · by_cases h3 : validEthAddress (normalize_address a') = true
          · simp [add_credits_endpoint, h1, h2, h3, hnameAdd, WalletResp.isJson]
          · simp [add_credits_endpoint, h1, h2,
              Bool.eq_false_iff.mpr h3, WalletResp.isJson]
    · by_cases h1 : m' ≤ 0
      · simp [use_credits_endpoint, h1, WalletResp.isJson]
      · by_cases h2 : a'.data.isEmpty
        · simp [use_credits_endpoint, h1, h2, WalletResp.isJson]
        · by_cases h3 : validEthAddress (normalize_address a') = true
          · rcases hs : CreditManager.validate_and_spend_credit s'
                (normalize_address a') with ⟨r, s''⟩
            cases r <;>
              simp [use_credits_endpoint, h1, h2, h3, hs, hnameUse, WalletResp.isJson]
          · simp [use_credits_endpoint, h1, h2,
              Bool.eq_false_iff.mpr h3, WalletResp.isJson]

/-- Witness for C6: on a concrete valid address holding 3 credits, the add
endpoint stores 3 + 5 and responds 500, and the use endpoint stores 2 and
responds 500. -/
theorem C6_unified_wallet_mutates_then_500_witness :
    (get_credits (add_credits_endpoint
        [("0x0123456789012345678901234567890123456789", (3 : Int))]
        "0x0123456789012345678901234567890123456789" 5).1
      (normalize_address "0x0123456789012345678901234567890123456789") = 8 ∧
      (add_credits_endpoint
        [("0x0123456789012345678901234567890123456789", (3 : Int))]
        "0x0123456789012345678901234567890123456789" 5).2 =
        .httpError 500 "Failed to add credits: name new_credits is not defined") ∧
    (get_credits (use_credits_endpoint
        [("0x0123456789012345678901234567890123456789", (3 : Int))]
        "0x0123456789012345678901234567890123456789" 1).1
      (normalize_address "0x0123456789012345678901234567890123456789") = 2 ∧
      (use_credits_endpoint
        [("0x0123456789012345678901234567890123456789", (3 : Int))]
        "0x0123456789012345678901234567890123456789" 1).2 =
        .httpError 500 "Failed to use credits: name new_credits is not defined") := by
  have hvalid : validEthAddress
      (normalize_address "0x0123456789012345678901234567890123456789") = true := by
    simp only [normalize_address, toLower_eval, pyStrip, validEthAddress, startswith_0x]
    decide
  have hbal : (1 : Int) ≤ get_credits
      [("0x0123456789012345678901234567890123456789", (3 : Int))]
      (normalize_address "0x0123456789012345678901234567890123456789") := by
    simp only [normalize_address, toLower_eval, pyStrip, get_credits,
      ModernRedisService.get_credits, userKey]
    decide
  have hget : get_credits
      [("0x0123456789012345678901234567890123456789", (3 : Int))]
      (normalize_address "0x0123456789012345678901234567890123456789") = 3 := by
    simp only [normalize_address, toLower_eval, pyStrip, get_credits,
      ModernRedisService.get_credits, userKey]
    decide
  have hadd := (C6_unified_wallet_mutates_then_500
      [("0x0123456789012345678901234567890123456789", (3 : Int))]
      "0x0123456789012345678901234567890123456789" 5).1
      (by norm_num) (by decide) hvalid
  have huse := (C6_unified_wallet_mutates_then_500
      [("0x0123456789012345678901234567890123456789", (3 : Int))]
      "0x0123456789012345678901234567890123456789" 1).2.1
      (by norm_num) (by decide) hvalid hbal
  refine ⟨⟨?_, ?_⟩, ⟨?_, ?_⟩⟩
  · rw [hadd.2, hget]
    norm_num
  · rw [hadd.1]
  · rw [huse.2, hget]
    norm_num
  · rw [huse.1]

end Ghiblify
